import Mathlib

/-!
Verification of the deduplicating, multi-source importance-filtering
tweet pipeline (`tweet_scraper.py`, `classifier.py`, `config.py`).

The Python code is shallowly embedded:
* a parsed timeline item becomes `Tweet`; fields the pipeline reads
  (`tweet_id`, `text`, `is_retweet`, `is_pinned`) are kept, with the
  dictionary defaults of the source already applied;
* the external AI backend (OpenAI / Anthropic SDK plus `json.loads` of the
  model response) is a function from the prompt string to an `AIOutcome`:
  a transport failure (the SDK call raised), a malformed response
  (`json.loads` raised), or a parsed object with optional `score` and
  `reason` fields;
* the HTTP fetch is a function from handle to `Option (List Tweet)`
  (`none` = `requests.exceptions.RequestException`);
* the persisted seen-tweet file is read through a model of `json.load`:
  `none` = file missing, `some none` = `json.JSONDecodeError`,
  `some (some v)` = the decoded JSON value;
* Python sets of strings become lists used up to membership, with
  `List.insert` as `set.add`.
-/

/-- A timeline item as `extract_tweets_from_handle` reads it:
`tweet_id` is the result of finding the `tweet-link` element and matching
`/status/(\d+)` (absent link or failed match gives `none`); the remaining
fields are what classification reads, with `dict.get` defaults applied. -/
structure Tweet where
  tweet_id : Option String
  text : String
  is_retweet : Bool
  is_pinned : Bool
deriving Repr, DecidableEq

/-- A tweet record after the pipeline attached classification metadata
(`handle`, `importance_score`, `importance_reason`, `ai_provider`). -/
structure ClassifiedTweet where
  tweet : Tweet
  handle : String
  importance_score : Int
  importance_reason : String
  ai_provider : String
deriving Repr, DecidableEq

/-- `KEYWORD_CONFIG["high_priority"]` from `config.py`. -/
def KEYWORD_CONFIG_high_priority : List String :=
  ["announcement", "announcing", "excited to announce", "breaking:", "news:",
   "launching", "launch", "release", "unveiled", "introducing",
   "acquisition", "merger", "funding", "investment", "ipo", "public",
   "earnings", "quarterly results"]

/-- `KEYWORD_CONFIG["company_keywords"]` from `config.py`. -/
def KEYWORD_CONFIG_company_keywords : List String :=
  ["xai", "spacex", "tesla", "neuralink", "openai", "anthropic",
   "microsoft", "google", "apple", "meta", "nvidia"]

/-- `KEYWORD_CONFIG["tech_keywords"]` from `config.py`. -/
def KEYWORD_CONFIG_tech_keywords : List String :=
  ["ai", "artificial intelligence", "machine learning", "deep learning",
   "gpt", "llm", "neural network", "transformer", "model training"]

/-- Character-list prefix test (Python string comparison, position 0). -/
def listIsPrefixOf : List Char → List Char → Bool
  | [], _ => true
  | _ :: _, [] => false
  | a :: as, b :: bs => a == b && listIsPrefixOf as bs

/-- Python's substring containment `needle in haystack`. -/
def containsSub : List Char → List Char → Bool
  | needle, [] => needle.isEmpty
  | needle, c :: cs => listIsPrefixOf needle (c :: cs) || containsSub needle cs

/-- Python `any(keyword in text for keyword in kws)`. -/
def keywordMatch (kws : List String) (text : String) : Bool :=
  kws.any (fun k => containsSub k.toList text.toList)

/-- `TweetClassifier.simple_keyword_classification`: the deterministic
keyword fallback cascade over the lower-cased tweet text. -/
def simple_keyword_classification (td : Tweet) : Int × String :=
  let text := td.text.toLower
  if td.is_pinned then (9, "Pinned tweet")
  else if keywordMatch KEYWORD_CONFIG_high_priority text then (8, "High priority keyword")
  else if keywordMatch KEYWORD_CONFIG_company_keywords text then
    ((if !td.is_retweet then 7 else 5), "Company keyword")
  else if keywordMatch KEYWORD_CONFIG_tech_keywords text then
    ((if !td.is_retweet then 6 else 4), "Tech keyword")
  else if td.is_retweet then (4, "Retweet")
  else (5, "Default classification")

/-- Outcome of one external AI request plus `json.loads` on its body:
the SDK call raised (transport), the body was not JSON (malformed), or a
parsed JSON object with optional `score` / `reason` fields. -/
inductive AIOutcome where
  | transportFailure (msg : String)
  | malformedResponse (msg : String)
  | parsed (score : Option Int) (reason : Option String)
deriving Repr, DecidableEq

/-- `TweetClassifier` state: the provider selector and whether each SDK
client was initialized (`_init_ai_clients` leaves a client `None` when the
module or the API key is missing). -/
structure TweetClassifier where
  ai_provider : String
  openai_client : Bool
  anthropic_client : Bool
deriving Repr, DecidableEq

/-- Python `str(b)` for a bool, as interpolated into the prompts. -/
def boolStr (b : Bool) : String := if b then "True" else "False"

/-- The GPT rating prompt built by `classify_with_gpt`. -/
def gptPrompt (context text : String) (rt pin : Bool) : String :=
  "Rate the importance of this tweet on a scale of 1-10 for someone interested in "
  ++ context ++ ".\n\nConsider:\n- Business announcements, product launches, earnings (9-10)\n- Technical updates, significant news (7-8) \n- General insights, commentary (5-6)\n- Social content, memes, casual posts (1-4)\n\nTweet: \""
  ++ text ++ "\"\nIs Retweet: " ++ boolStr rt ++ "\nIs Pinned: " ++ boolStr pin
  ++ "\n\nRespond with only a JSON object: \x7b\"score\": X, \"reason\": \"brief explanation\"\x7d"

/-- The Claude rating prompt built by `classify_with_claude`. -/
def claudePrompt (context text : String) (rt pin : Bool) : String :=
  "Rate the importance of this tweet on a scale of 1-10 for someone interested in "
  ++ context ++ ".\n\nScoring guide:\n- Major business announcements, earnings, launches: 9-10\n- Significant product updates, technical breakthroughs: 7-8\n- Industry insights, meaningful commentary: 5-6  \n- Social posts, retweets of fluff, memes: 1-4\n\nTweet: \""
  ++ text ++ "\"\nIs Retweet: " ++ boolStr rt ++ "\nIs Pinned: " ++ boolStr pin
  ++ "\n\nRespond with only a JSON object: \x7b\"score\": X, \"reason\": \"brief explanation\"\x7d"

/-- `TweetClassifier.classify_with_gpt`. The `try` block covers both the
SDK request and `json.loads`; any exception `e` is caught and turned into
`(5, "GPT error: " ++ str(e)[:50])`. On a parsed object,
`result.get('score', 5)` / `result.get('reason', ...)` are returned with
no range check. -/
def classify_with_gpt (c : TweetClassifier) (env : String → AIOutcome)
    (td : Tweet) (context : String) : Int × String :=
  if !c.openai_client then (5, "GPT client not available")
  else
    match env (gptPrompt context td.text td.is_retweet td.is_pinned) with
    | .transportFailure e => (5, "GPT error: " ++ e.take 50)
    | .malformedResponse e => (5, "GPT error: " ++ e.take 50)
    | .parsed sc r => (sc.getD 5, r.getD "GPT classification")

/-- `TweetClassifier.classify_with_claude`, same shape as the GPT path. -/
def classify_with_claude (c : TweetClassifier) (env : String → AIOutcome)
    (td : Tweet) (context : String) : Int × String :=
  if !c.anthropic_client then (5, "Claude client not available")
  else
    match env (claudePrompt context td.text td.is_retweet td.is_pinned) with
    | .transportFailure e => (5, "Claude error: " ++ e.take 50)
    | .malformedResponse e => (5, "Claude error: " ++ e.take 50)
    | .parsed sc r => (sc.getD 5, r.getD "Claude classification")

/-- `TweetClassifier.classify_tweet`: dispatch on the provider selector. -/
def classify_tweet (c : TweetClassifier) (env : String → AIOutcome)
    (td : Tweet) (context : String) : Int × String :=
  if c.ai_provider == "gpt" then classify_with_gpt c env td context
  else if c.ai_provider == "claude" then classify_with_claude c env td context
  else (5, "Unknown AI provider")

/-- `TweetClassifier.is_ai_available`. -/
def is_ai_available (c : TweetClassifier) : Bool :=
  if c.ai_provider == "gpt" then c.openai_client
  else if c.ai_provider == "claude" then c.anthropic_client
  else false

/-- One entry of `HANDLES_CONFIG`: a per-handle dict whose `min_score` and
`context` keys may each be absent (the pipeline reads them with
`dict.get` defaults). -/
structure HandleConfig where
  min_score : Option Int
  context : Option String
deriving Repr, DecidableEq

/-- `HANDLES_CONFIG` from `config.py`. -/
def HANDLES_CONFIG : List (String × HandleConfig) :=
  [("elonmusk", ⟨some 9, some "Elon Musk tech/business content (Tesla, SpaceX, xAI, Neuralink, major announcements)"⟩),
   ("sama", ⟨some 8, some "Sam Altman content (OpenAI, AI development, tech leadership, industry insights)"⟩),
   ("karpathy", ⟨some 6, some "Andrej Karpathy content (AI research, machine learning, technical insights)"⟩),
   ("naval", ⟨some 8, some "Naval Ravikant content (startups, investing, philosophy, wealth creation)"⟩),
   ("pmarca", ⟨some 7, some "Marc Andreessen content (VC insights, tech trends, startups, market analysis)"⟩),
   ("AndrewYNg", ⟨some 7, some "andrew ng"⟩),
   ("Emerj", ⟨some 7, some "Emerj"⟩),
   ("markgurman", ⟨some 7, some "markgurman"⟩),
   ("TechCrunch", ⟨some 8, some "TechCrunch"⟩),
   ("FT", ⟨some 8, some "FT"⟩),
   ("JustinWolfers", ⟨some 8, some "JustinWolfers"⟩),
   ("Reuters", ⟨some 8, some "Reuters"⟩)]

/-- `TwitterScraper` state: the constructor flags, the handles mapping, the
classifier, and the in-memory seen-tweet-id set (a list used up to
membership). -/
structure TwitterScraper where
  ai_classification : Bool
  ai_provider : String
  handles_config : List (String × HandleConfig)
  classifier : TweetClassifier
  seen_tweet_ids : List String
deriving Repr, DecidableEq

/-- Python `self.handles_config.get(handle, {})` over the mapping. -/
def lookupHandleConfig (cfgs : List (String × HandleConfig)) (handle : String) :
    Option HandleConfig :=
  (cfgs.find? (fun p => p.1 == handle)).map (·.2)

/-- `handle_config.get("min_score", 6)` as `classify_tweet_importance`
computes it (default 6 when the handle or the key is absent). -/
def handleMinScore (s : TwitterScraper) (handle : String) : Int :=
  ((lookupHandleConfig s.handles_config handle).bind (fun hc => hc.min_score)).getD 6

/-- `handle_config.get("context", f"{handle} content")` as
`classify_tweet_importance` computes it. -/
def handleContext (s : TwitterScraper) (handle : String) : String :=
  ((lookupHandleConfig s.handles_config handle).bind (fun hc => hc.context)).getD
    (handle ++ " content")

/-- `TwitterScraper.classify_tweet_importance`: route to the AI classifier
exactly when the AI flag is set and the client is available, otherwise use
the keyword cascade, appending the fallback marker when AI was requested
but unavailable; then compare against the handle's threshold. Returns
`(is_important, score, reason)`. -/
def classify_tweet_importance (s : TwitterScraper) (env : String → AIOutcome)
    (td : Tweet) (handle : String) : Bool × Int × String :=
  let min_score := handleMinScore s handle
  if s.ai_classification && is_ai_available s.classifier then
    let p := classify_tweet s.classifier env td (handleContext s handle)
    (decide (min_score ≤ p.1), p.1, p.2)
  else
    let p := simple_keyword_classification td
    let reason :=
      if s.ai_classification && !(is_ai_available s.classifier) then
        p.2 ++ " (AI not available - using keywords)"
      else p.2
    (decide (min_score ≤ p.1), p.1, reason)

/-- The per-handle result record returned by `extract_tweets_from_handle`
(the fields that are pure data; the timestamp and URL are omitted). -/
structure HandleResult where
  handle : String
  tweets_count : Nat
  new_tweets_count : Nat
  skipped_tweets_count : Nat
  tweets : List ClassifiedTweet
  filtered_out_count : Nat
  ai_classification_enabled : Bool
  ai_provider : String
deriving Repr, DecidableEq

/-- The mutable state of the per-item loop in
`extract_tweets_from_handle`: the processed-tweet list, the kept list, the
skip and filter counters, and the seen-id set. -/
structure LoopState where
  tweets : List ClassifiedTweet
  new_tweets : List ClassifiedTweet
  skipped : Nat
  filtered : Nat
  seen : List String
deriving Repr, DecidableEq

/-- Attach the classification metadata the loop stores on `tweet_data`. -/
def classifyItem (s : TwitterScraper) (env : String → AIOutcome)
    (handle : String) (td : Tweet) : ClassifiedTweet :=
  let c := classify_tweet_importance s env td handle
  { tweet := td, handle := handle, importance_score := c.2.1,
    importance_reason := c.2.2,
    ai_provider := if s.ai_classification then s.ai_provider else "keyword" }

/-- The not-already-seen path of one loop iteration: classify, append to
the processed list, then keep (important) or count as filtered. -/
def processNew (s : TwitterScraper) (env : String → AIOutcome)
    (handle : String) (st : LoopState) (td : Tweet) : LoopState :=
  let c := classify_tweet_importance s env td handle
  let ct := classifyItem s env handle td
  if c.1 then
    { st with tweets := st.tweets ++ [ct], new_tweets := st.new_tweets ++ [ct] }
  else
    { st with tweets := st.tweets ++ [ct], filtered := st.filtered + 1 }

/-- One iteration of the per-item loop: when an id was extracted, skip an
already-seen id (counting it) or mark the id seen before classifying;
when no id was extracted the item is classified without dedup tracking. -/
def processItem (s : TwitterScraper) (env : String → AIOutcome)
    (handle : String) (st : LoopState) (td : Tweet) : LoopState :=
  match td.tweet_id with
  | some tid =>
    if tid ∈ st.seen then { st with skipped := st.skipped + 1 }
    else processNew s env handle { st with seen := st.seen.insert tid } td
  | none => processNew s env handle st td

/-- The whole per-item loop, in page order. -/
def processItems (s : TwitterScraper) (env : String → AIOutcome)
    (handle : String) : LoopState → List Tweet → LoopState
  | st, [] => st
  | st, td :: rest => processItems s env handle (processItem s env handle st td) rest

/-- The loop state at entry of `extract_tweets_from_handle`. -/
def initState (seen : List String) : LoopState :=
  { tweets := [], new_tweets := [], skipped := 0, filtered := 0, seen := seen }

/-- `TwitterScraper.extract_tweets_from_handle`: fetch the handle's page
(`pages handle = none` models a `RequestException`, returning `None` and
leaving the scraper unchanged), run the item loop, and build the result
record; the updated seen set is stored back on the scraper. -/
def extract_tweets_from_handle (s : TwitterScraper) (env : String → AIOutcome)
    (pages : String → Option (List Tweet)) (handle : String) :
    Option HandleResult × TwitterScraper :=
  match pages handle with
  | none => (none, s)
  | some items =>
    let st := processItems s env handle (initState s.seen_tweet_ids) items
    (some { handle := handle,
            tweets_count := st.tweets.length,
            new_tweets_count := st.new_tweets.length,
            skipped_tweets_count := st.skipped,
            tweets := st.new_tweets,
            filtered_out_count := st.filtered,
            ai_classification_enabled := s.ai_classification,
            ai_provider := if s.ai_classification then s.ai_provider else "keyword" },
     { s with seen_tweet_ids := st.seen })

/-- The accumulator of `extract_tweets_from_multiple_handles`:
`all_results`, `combined_tweets` (pre-sort), the three running totals of
`total_stats`, and the scraper state threaded through the handles. -/
structure MultiState where
  all_results : List HandleResult
  combined : List ClassifiedTweet
  successful : Nat
  total_important : Nat
  total_filtered : Nat
  scraper : TwitterScraper
deriving Repr, DecidableEq

/-- The per-handle loop of `extract_tweets_from_multiple_handles`: a
successful handle appends its result, extends the combined list and the
totals; a failed handle only prints and is left out. -/
def runHandles (env : String → AIOutcome) (pages : String → Option (List Tweet)) :
    MultiState → List String → MultiState
  | ms, [] => ms
  | ms, h :: rest =>
    match extract_tweets_from_handle ms.scraper env pages h with
    | (some r, s') =>
      runHandles env pages
        { all_results := ms.all_results ++ [r],
          combined := ms.combined ++ r.tweets,
          successful := ms.successful + 1,
          total_important := ms.total_important + r.new_tweets_count,
          total_filtered := ms.total_filtered + r.filtered_out_count,
          scraper := s' } rest
    | (none, s') => runHandles env pages { ms with scraper := s' } rest

/-- The comparison `combined_tweets.sort(key=..., reverse=True)` sorts by:
descending importance score (Python's sort is stable). -/
def scoreDescLE (a b : ClassifiedTweet) : Bool :=
  decide (b.importance_score ≤ a.importance_score)

/-- The aggregate stats dict of `extract_tweets_from_multiple_handles`. -/
structure AggStats where
  total_handles : Nat
  successful_handles : Nat
  total_important_tweets : Nat
  total_filtered_tweets : Nat
deriving Repr, DecidableEq

/-- The aggregate result of `extract_tweets_from_multiple_handles`
(timestamp omitted). -/
structure AggResult where
  handles_scraped : List String
  individual_results : List HandleResult
  combined_tweets : List ClassifiedTweet
  stats : AggStats
deriving Repr, DecidableEq

/-- `TwitterScraper.extract_tweets_from_multiple_handles` on an explicit
handle list: run every handle in order, then stable-sort the combined kept
tweets by importance score descending. -/
def extract_tweets_from_multiple_handles (s : TwitterScraper)
    (env : String → AIOutcome) (pages : String → Option (List Tweet))
    (handles : List String) : AggResult × TwitterScraper :=
  let ms := runHandles env pages
    { all_results := [], combined := [], successful := 0,
      total_important := 0, total_filtered := 0, scraper := s } handles
  ({ handles_scraped := handles,
     individual_results := ms.all_results,
     combined_tweets := ms.combined.mergeSort scoreDescLE,
     stats := { total_handles := handles.length,
                successful_handles := ms.successful,
                total_important_tweets := ms.total_important,
                total_filtered_tweets := ms.total_filtered } }, ms.scraper)

/-- A JSON value as `json.load` decodes it (objects as association
lists). -/
inductive JSONValue where
  | jnull
  | jbool (b : Bool)
  | jnum (n : Int)
  | jstr (s : String)
  | jarr (xs : List JSONValue)
  | jobj (fields : List (String × JSONValue))
deriving Repr

/-- The Python exceptions `load_seen_tweets` can leak to its caller. -/
inductive PyError where
  | attributeError
  | typeError
deriving Repr, DecidableEq

/-- Python `dict.get` on a decoded JSON object's association list. -/
def jsonLookup (fields : List (String × JSONValue)) (key : String) : Option JSONValue :=
  (fields.find? (fun p => p.1 == key)).map (·.2)

/-- Whether a `json.load`-decoded value is hashable in Python: `None`,
booleans, numbers and strings are; lists and dicts are not, and adding
one to a set raises `TypeError`. -/
def jsonHashable : JSONValue → Bool
  | .jnull => true
  | .jbool _ => true
  | .jnum _ => true
  | .jstr _ => true
  | .jarr _ => false
  | .jobj _ => false

/-- Python `set(v)`: iterating a list yields its elements — each of which
must be hashable, else `set` raises `TypeError` — a string its characters,
a dict its keys; `None`, booleans and numbers are not iterable and raise
`TypeError`. Duplicates are immaterial to the pipeline (the set is only
read through membership), so elements are kept in iteration order. -/
def pySetOfIter : JSONValue → Except PyError (List JSONValue)
  | .jarr xs => if xs.all jsonHashable then .ok xs else .error .typeError
  | .jstr s => .ok (s.toList.map (fun ch => JSONValue.jstr ch.toString))
  | .jobj fields => .ok (fields.map (fun p => JSONValue.jstr p.1))
  | .jnull => .error .typeError
  | .jbool _ => .error .typeError
  | .jnum _ => .error .typeError

/-- `TwitterScraper.load_seen_tweets`, with the file system and `json.load`
modelled as the argument: `none` = the file does not exist, `some none` =
the content raised `json.JSONDecodeError`, `some (some v)` = the content
decoded to `v`. The `except` clause catches only `JSONDecodeError` and
`KeyError`; `data.get` on a non-dict raises `AttributeError`, and
`set(...)` raises `TypeError` on a non-iterable value or on an iterable
holding an unhashable element — all of these propagate. -/
def load_seen_tweets (file : Option (Option JSONValue)) :
    Except PyError (List JSONValue) :=
  match file with
  | none => .ok []
  | some none => .ok []
  | some (some data) =>
    match data with
    | .jobj fields => pySetOfIter ((jsonLookup fields "seen_tweet_ids").getD (.jarr []))
    | _ => .error .attributeError

/-! Concrete states and inputs used by counterexamples and witnesses. -/

/-- A classifier whose SDK clients were never initialized. -/
def kwClassifier : TweetClassifier := ⟨"gpt", false, false⟩

/-- A classifier with a working OpenAI client. -/
def gptClassifier : TweetClassifier := ⟨"gpt", true, false⟩

/-- An AI backend whose every request fails in transport. -/
def envNone : String → AIOutcome := fun _ => .transportFailure "connection refused"

/-- An AI backend answering every request with `\x7b"score": 15\x7d`:
valid JSON whose score is outside the 1-10 contract. -/
def envScore15 : String → AIOutcome := fun _ => .parsed (some 15) none

/-- A pinned tweet. -/
def pinnedTweet : Tweet := ⟨some "101", "a pinned note", false, true⟩

/-- A retweet whose text has a tech keyword. -/
def techRetweet : Tweet := ⟨some "102", "thoughts on machine learning", true, false⟩

/-- A plain tweet matching no keyword rule. -/
def plainTweet : Tweet := ⟨some "103", "nothing much today", false, false⟩

/-- A tweet whose id is already in the seen set `["3"]`. -/
def seenTweet : Tweet := ⟨some "3", "an item from an earlier run", false, false⟩

/-- A keyword-mode scraper over the repository's handle config, with one
previously seen id. -/
def scraperKW : TwitterScraper := ⟨false, "gpt", HANDLES_CONFIG, kwClassifier, ["3"]⟩

/-- An AI-mode scraper (GPT available) with no per-handle overrides. -/
def scraperAI : TwitterScraper := ⟨true, "gpt", [], gptClassifier, []⟩

/-- A keyword-mode scraper whose seen set already holds id "3". -/
def scraperSeen : TwitterScraper := ⟨false, "gpt", [], kwClassifier, ["3"]⟩

/-- A timeline of one unseen plain tweet, for every handle. -/
def pageOne : String → Option (List Tweet) := fun _ => some [plainTweet]

/-- A timeline of one already-seen tweet, for every handle. -/
def pageSeen : String → Option (List Tweet) := fun _ => some [seenTweet]

/-- A fetcher where only handle "karpathy" resolves, to a two-item page. -/
def pagesW2 : String → Option (List Tweet) :=
  fun h => if h == "karpathy" then some [pinnedTweet, techRetweet] else none

/-- The invariant tying a `MultiState` accumulator to its result list:
the combined list is the concatenation of the per-handle kept lists and
the running totals are sums over the collected results. -/
def MsInv (ms : MultiState) : Prop :=
  ms.combined = (ms.all_results.map (fun r => r.tweets)).flatten ∧
  ms.successful = ms.all_results.length ∧
  ms.total_important = (ms.all_results.map (fun r => r.new_tweets_count)).sum ∧
  ms.total_filtered = (ms.all_results.map (fun r => r.filtered_out_count)).sum

/-! Helper lemmas. -/

theorem listIsPrefixOf_refl (l : List Char) : listIsPrefixOf l l = true := by
  induction l with
  | nil => rfl
  | cons c cs ih => simp [listIsPrefixOf, ih]

theorem containsSub_append_right (pre n : List Char) : containsSub n (pre ++ n) = true := by
  induction pre with
  | nil =>
    cases n with
    | nil => rfl
    | cons c cs => simp [containsSub, listIsPrefixOf_refl]
  | cons p ps ih => simp [containsSub, ih]

theorem containsSub_marker (r : String) :
    containsSub "(AI not available - using keywords)".toList
      (r ++ " (AI not available - using keywords)").toList = true := by
  have h2 : (" (AI not available - using keywords)" : String).data
      = ' ' :: "(AI not available - using keywords)".data := by decide
  have h : (r ++ " (AI not available - using keywords)").data
      = (r.data ++ [' ']) ++ "(AI not available - using keywords)".data := by
    rw [String.data_append, h2, List.append_assoc]
    rfl
  simp only [String.toList, h]
  exact containsSub_append_right _ _

theorem skc_range (td : Tweet) :
    1 ≤ (simple_keyword_classification td).1 ∧ (simple_keyword_classification td).1 ≤ 10 := by
  simp only [simple_keyword_classification]
  split_ifs <;> constructor <;> decide

theorem classify_keyword_mode (s : TwitterScraper) (env : String → AIOutcome)
    (td : Tweet) (handle : String)
    (h : (s.ai_classification && is_ai_available s.classifier) = false) :
    (classify_tweet_importance s env td handle).2.1 = (simple_keyword_classification td).1 := by
  simp [classify_tweet_importance, h]

/-- C3: the keyword classifier evaluates its rules in strict priority
order with first-match-wins over the lower-cased tweet text: pinned
scores 9; else any high-priority keyword scores 8 even when a company or
tech keyword is also present; else a company keyword scores 7 (5 for a
retweet); else a tech keyword scores 6 (4 for a retweet); else a retweet
scores 4; else 5. -/
theorem keyword_cascade_first_match_wins (td : Tweet) :
    (td.is_pinned = true → simple_keyword_classification td = (9, "Pinned tweet")) ∧
    (td.is_pinned = false →
      keywordMatch KEYWORD_CONFIG_high_priority td.text.toLower = true →
      simple_keyword_classification td = (8, "High priority keyword")) ∧
    (td.is_pinned = false →
      keywordMatch KEYWORD_CONFIG_high_priority td.text.toLower = false →
      keywordMatch KEYWORD_CONFIG_company_keywords td.text.toLower = true →
      simple_keyword_classification td =
        ((if td.is_retweet then 5 else 7), "Company keyword")) ∧
    (td.is_pinned = false →
      keywordMatch KEYWORD_CONFIG_high_priority td.text.toLower = false →
      keywordMatch KEYWORD_CONFIG_company_keywords td.text.toLower = false →
      keywordMatch KEYWORD_CONFIG_tech_keywords td.text.toLower = true →
      simple_keyword_classification td =
        ((if td.is_retweet then 4 else 6), "Tech keyword")) ∧
    (td.is_pinned = false →
      keywordMatch KEYWORD_CONFIG_high_priority td.text.toLower = false →
      keywordMatch KEYWORD_CONFIG_company_keywords td.text.toLower = false →
      keywordMatch KEYWORD_CONFIG_tech_keywords td.text.toLower = false →
      td.is_retweet = true →
      simple_keyword_classification td = (4, "Retweet")) ∧
    (td.is_pinned = false →
      keywordMatch KEYWORD_CONFIG_high_priority td.text.toLower = false →
      keywordMatch KEYWORD_CONFIG_company_keywords td.text.toLower = false →
      keywordMatch KEYWORD_CONFIG_tech_keywords td.text.toLower = false →
      td.is_retweet = false →
      simple_keyword_classification td = (5, "Default classification")) := by
  refine ⟨?_, ?_, ?_, ?_, ?_, ?_⟩ <;>
    intros <;>
    cases hr : td.is_retweet <;>
    simp_all [simple_keyword_classification]

/-- C4: AI scoring is used exactly when the AI flag is set and
`is_ai_available` holds; in every other case the keyword classifier is
used, and when AI was requested but unavailable the returned reason
additionally carries the fallback marker, distinguishing a fallback score
from a genuine AI score. -/
theorem ai_routing_and_fallback_marker (s : TwitterScraper) (env : String → AIOutcome)
    (td : Tweet) (handle : String) :
    (s.ai_classification = true → is_ai_available s.classifier = true →
      classify_tweet_importance s env td handle =
        (decide (handleMinScore s handle ≤
            (classify_tweet s.classifier env td (handleContext s handle)).1),
         classify_tweet s.classifier env td (handleContext s handle))) ∧
    (s.ai_classification = false →
      classify_tweet_importance s env td handle =
        (decide (handleMinScore s handle ≤ (simple_keyword_classification td).1),
         simple_keyword_classification td)) ∧
    (s.ai_classification = true → is_ai_available s.classifier = false →
      classify_tweet_importance s env td handle =
        (decide (handleMinScore s handle ≤ (simple_keyword_classification td).1),
         (simple_keyword_classification td).1,
         (simple_keyword_classification td).2 ++ " (AI not available - using keywords)") ∧
      containsSub "(AI not available - using keywords)".toList
        (classify_tweet_importance s env td handle).2.2.toList = true) := by
  refine ⟨?_, ?_, ?_⟩
  · intro h1 h2
    simp [classify_tweet_importance, h1, h2]
  · intro h1
    simp [classify_tweet_importance, h1]
  · intro h1 h2
    refine ⟨by simp [classify_tweet_importance, h1, h2], ?_⟩
    have he : (classify_tweet_importance s env td handle).2.2
        = (simple_keyword_classification td).2 ++ " (AI not available - using keywords)" := by
      simp [classify_tweet_importance, h1, h2]
    rw [he]
    exact containsSub_marker _

/-- C5: the AI classification call is a total function of the classifier
state and the backend outcome (it never raises to its caller), and on a
missing client, a transport failure or a malformed (non-JSON) response it
returns the sentinel score 5 with a diagnostic reason, for both
providers. -/
theorem ai_call_failure_sentinel (c : TweetClassifier) (env : String → AIOutcome)
    (td : Tweet) (context : String) (msg : String) :
    (c.openai_client = false →
      classify_with_gpt c env td context = (5, "GPT client not available")) ∧
    (c.openai_client = true →
      env (gptPrompt context td.text td.is_retweet td.is_pinned) = .transportFailure msg →
      classify_with_gpt c env td context = (5, "GPT error: " ++ msg.take 50)) ∧
    (c.openai_client = true →
      env (gptPrompt context td.text td.is_retweet td.is_pinned) = .malformedResponse msg →
      classify_with_gpt c env td context = (5, "GPT error: " ++ msg.take 50)) ∧
    (c.anthropic_client = false →
      classify_with_claude c env td context = (5, "Claude client not available")) ∧
    (c.anthropic_client = true →
      env (claudePrompt context td.text td.is_retweet td.is_pinned) = .transportFailure msg →
      classify_with_claude c env td context = (5, "Claude error: " ++ msg.take 50)) ∧
    (c.anthropic_client = true →
      env (claudePrompt context td.text td.is_retweet td.is_pinned) = .malformedResponse msg →
      classify_with_claude c env td context = (5, "Claude error: " ++ msg.take 50)) := by
  refine ⟨?_, ?_, ?_, ?_, ?_, ?_⟩
  · intro h1; simp [classify_with_gpt, h1]
  · intro h1 h2; simp [classify_with_gpt, h1, h2]
  · intro h1 h2; simp [classify_with_gpt, h1, h2]
  · intro h1; simp [classify_with_claude, h1]
  · intro h1 h2; simp [classify_with_claude, h1, h2]
  · intro h1 h2; simp [classify_with_claude, h1, h2]

/-- C10: for a handle absent from the handles mapping, classification is
total and uses the defaults `min_score = 6` and context
`handle ++ " content"`; the importance verdict is the score compared
against 6. -/
theorem missing_handle_config_defaults (s : TwitterScraper) (env : String → AIOutcome)
    (td : Tweet) (handle : String)
    (h : lookupHandleConfig s.handles_config handle = none) :
    handleMinScore s handle = 6 ∧
    handleContext s handle = handle ++ " content" ∧
    (classify_tweet_importance s env td handle).1 =
      decide (6 ≤ (classify_tweet_importance s env td handle).2.1) := by
  have hm : handleMinScore s handle = 6 := by simp [handleMinScore, h]
  refine ⟨hm, by simp [handleContext, h], ?_⟩
  simp only [classify_tweet_importance, hm]
  split <;> rfl

/-- C10 witness: the handle "acme" is not in `HANDLES_CONFIG`, so the
keyword-mode scraper classifies against the defaults. -/
theorem missing_handle_config_defaults_witness :
    handleMinScore scraperKW "acme" = 6 ∧
    handleContext scraperKW "acme" = "acme" ++ " content" ∧
    (classify_tweet_importance scraperKW envNone plainTweet "acme").1 =
      decide (6 ≤ (classify_tweet_importance scraperKW envNone plainTweet "acme").2.1) :=
  missing_handle_config_defaults scraperKW envNone plainTweet "acme" (by decide)

/-- C6 counterexample: a persisted file whose content is valid JSON but
not an object (here the JSON array `[]`) makes `load_seen_tweets` raise
`AttributeError` to its caller (`data.get` on a list), contradicting
"returns an empty set rather than raising when the file content is
corrupt or unreadable in any way". -/
theorem load_raises_on_non_object_json :
    load_seen_tweets (some (some (JSONValue.jarr []))) = Except.error PyError.attributeError :=
  rfl

/-- C6 amended: loading returns the empty set when the file is missing
and when the content fails JSON decoding, and returns the stored ids on a
well-formed object whose ids are strings; but (see the counterexample)
valid JSON of a non-object shape raises `AttributeError` instead of being
treated as corrupt, and an id array holding an unhashable element (here a
nested array) makes `set()` raise `TypeError`, which the `except` clause
does not catch either. -/
theorem load_missing_or_undecodable_is_empty (ids : List String) :
    load_seen_tweets none = Except.ok [] ∧
    load_seen_tweets (some none) = Except.ok [] ∧
    load_seen_tweets (some (some (JSONValue.jobj
        [("seen_tweet_ids", JSONValue.jarr (ids.map JSONValue.jstr))])))
      = Except.ok (ids.map JSONValue.jstr) ∧
    load_seen_tweets (some (some (JSONValue.jobj
        [("seen_tweet_ids", JSONValue.jarr [JSONValue.jarr []])])))
      = Except.error PyError.typeError := by
  refine ⟨rfl, rfl, ?_, rfl⟩
  have hall : ∀ l : List String, ((l.map JSONValue.jstr).all jsonHashable) = true := by
    intro l
    induction l with
    | nil => rfl
    | cons a as ih => simp [ih, jsonHashable]
  show pySetOfIter (JSONValue.jarr (ids.map JSONValue.jstr))
    = Except.ok (ids.map JSONValue.jstr)
  simp [pySetOfIter, hall ids]

/-- C9: at a page holding exactly one (already seen) tweet record, the
reported `tweets_count` — printed as "Total tweets on page" — is 0 while
the page holds 1 record and `skipped + kept + filtered = 1`: the reported
total excludes skipped records, contradicting
`totalOnPage = skippedAlreadySeen + keptImportant + filteredOut`. -/
theorem tweets_count_excludes_skipped :
    ((extract_tweets_from_handle scraperSeen envNone pageSeen "h").1).map
        (fun r => (r.tweets_count, r.skipped_tweets_count, r.new_tweets_count,
                   r.filtered_out_count)) = some (0, 1, 0, 0) ∧
    (pageSeen "h").map List.length = some 1 :=
  ⟨rfl, rfl⟩

theorem processNew_new_mem (s : TwitterScraper) (env : String → AIOutcome)
    (handle : String) (st : LoopState) (td : Tweet) (t : ClassifiedTweet)
    (h : t ∈ (processNew s env handle st td).new_tweets) :
    t ∈ st.new_tweets ∨ t = classifyItem s env handle td := by
  simp only [processNew] at h
  split at h
  · simp only [List.mem_append, List.mem_singleton] at h
    exact h
  · exact .inl h

theorem processItem_new_mem (s : TwitterScraper) (env : String → AIOutcome)
    (handle : String) (st : LoopState) (td : Tweet) (t : ClassifiedTweet)
    (h : t ∈ (processItem s env handle st td).new_tweets) :
    t ∈ st.new_tweets ∨ t = classifyItem s env handle td := by
  obtain ⟨tid?, tx, rt, pin⟩ := td
  cases tid? with
  | none =>
    simp only [processItem] at h
    exact processNew_new_mem s env handle st _ t h
  | some tid =>
    simp only [processItem] at h
    by_cases hm : tid ∈ st.seen
    · rw [if_pos hm] at h
      exact .inl h
    · rw [if_neg hm] at h
      exact processNew_new_mem s env handle
        { st with seen := List.insert tid st.seen } _ t h

theorem processItems_new_mem (s : TwitterScraper) (env : String → AIOutcome)
    (handle : String) :
    ∀ (items : List Tweet) (st : LoopState) (t : ClassifiedTweet),
      t ∈ (processItems s env handle st items).new_tweets →
      t ∈ st.new_tweets ∨ ∃ td, td ∈ items ∧ t = classifyItem s env handle td := by
  intro items
  induction items with
  | nil => exact fun st t h => .inl h
  | cons td rest ih =>
    intro st t h
    rcases ih _ t h with h' | ⟨td', h1, h2⟩
    · rcases processItem_new_mem s env handle st td t h' with h'' | h''
      · exact .inl h''
      · exact .inr ⟨td, List.mem_cons_self td rest, h''⟩
    · exact .inr ⟨td', List.mem_cons_of_mem td h1, h2⟩

/-- C1 counterexample: with the AI path active and the model answering
with the out-of-range score 15, the pipeline stores `importance_score =
15` on the emitted tweet record — the classifier result is neither
clamped nor rejected, and 15 is outside [1,10]. -/
theorem out_of_range_score_stored_unclamped :
    ((extract_tweets_from_handle scraperAI envScore15 pageOne "h").1).map
        (fun r => r.tweets.map (fun t => t.importance_score)) = some [(15 : Int)] ∧
    ¬((15 : Int) ≤ 10) :=
  ⟨rfl, by decide⟩

/-- C1 amended: every tweet emitted by a run that classifies with the
keyword cascade (AI off, or AI requested but unavailable) carries an
importance score in [1,10]; but on the AI path a parsed score is
propagated to the caller exactly as the model returned it, with no
clamping or rejection. -/
theorem keyword_scores_in_range_ai_passthrough (s : TwitterScraper)
    (env : String → AIOutcome) (pages : String → Option (List Tweet)) (handle : String)
    (c : TweetClassifier) (td : Tweet) (context : String) (sc : Int) (r : Option String) :
    ((s.ai_classification && is_ai_available s.classifier) = false →
      ∀ res, (extract_tweets_from_handle s env pages handle).1 = some res →
        ∀ t ∈ res.tweets, 1 ≤ t.importance_score ∧ t.importance_score ≤ 10) ∧
    (c.openai_client = true →
      env (gptPrompt context td.text td.is_retweet td.is_pinned)
        = .parsed (some sc) r →
      classify_with_gpt c env td context = (sc, r.getD "GPT classification")) := by
  constructor
  · intro hmode res hres t ht
    simp only [extract_tweets_from_handle] at hres
    rcases hpg : pages handle with _ | items <;> rw [hpg] at hres
    · simp at hres
    · simp only [Option.some.injEq] at hres
      rw [← hres] at ht
      simp only at ht
      rcases processItems_new_mem s env handle items (initState s.seen_tweet_ids) t ht with
        h' | ⟨td', _, h2⟩
      · simp [initState] at h'
      · rw [h2]
        show 1 ≤ (classify_tweet_importance s env td' handle).2.1 ∧
          (classify_tweet_importance s env td' handle).2.1 ≤ 10
        rw [classify_keyword_mode s env td' handle hmode]
        exact skc_range td'
  · intro h1 h2
    simp [classify_with_gpt, h1, h2]

theorem processNew_seen (s : TwitterScraper) (env : String → AIOutcome)
    (handle : String) (st : LoopState) (td : Tweet) :
    (processNew s env handle st td).seen = st.seen := by
  simp only [processNew]
  split <;> rfl

theorem processItem_seen_mono (s : TwitterScraper) (env : String → AIOutcome)
    (handle : String) (st : LoopState) (td : Tweet) (x : String) (h : x ∈ st.seen) :
    x ∈ (processItem s env handle st td).seen := by
  obtain ⟨tid?, tx, rt, pin⟩ := td
  cases tid? with
  | none =>
    simp only [processItem]
    rw [processNew_seen]
    exact h
  | some tid =>
    simp only [processItem]
    by_cases hm : tid ∈ st.seen
    · rw [if_pos hm]
      exact h
    · rw [if_neg hm, processNew_seen]
      exact List.mem_insert_of_mem h

theorem processItem_marks (s : TwitterScraper) (env : String → AIOutcome)
    (handle : String) (st : LoopState) (td : Tweet) (tid : String)
    (h : td.tweet_id = some tid) :
    tid ∈ (processItem s env handle st td).seen := by
  obtain ⟨tid?, tx, rt, pin⟩ := td
  cases tid? with
  | none => simp at h
  | some a =>
    injection h with h
    subst h
    simp only [processItem]
    by_cases hm : a ∈ st.seen
    · rw [if_pos hm]
      exact hm
    · rw [if_neg hm, processNew_seen]
      exact List.mem_insert_self a st.seen

theorem processItems_seen_mono (s : TwitterScraper) (env : String → AIOutcome)
    (handle : String) :
    ∀ (items : List Tweet) (st : LoopState) (x : String),
      x ∈ st.seen → x ∈ (processItems s env handle st items).seen := by
  intro items
  induction items with
  | nil => exact fun st x h => h
  | cons td rest ih =>
    intro st x h
    exact ih _ x (processItem_seen_mono s env handle st td x h)

theorem processItems_marks (s : TwitterScraper) (env : String → AIOutcome)
    (handle : String) :
    ∀ (items : List Tweet) (st : LoopState) (td : Tweet) (tid : String),
      td ∈ items → td.tweet_id = some tid →
      tid ∈ (processItems s env handle st items).seen := by
  intro items
  induction items with
  | nil => intro st td tid h; simp at h
  | cons td' rest ih =>
    intro st td tid hmem htid
    rcases List.mem_cons.mp hmem with heq | hmem'
    · subst heq
      exact processItems_seen_mono s env handle rest _ tid
        (processItem_marks s env handle st td tid htid)
    · exact ih _ td tid hmem' htid

theorem processItem_skip (s : TwitterScraper) (env : String → AIOutcome)
    (handle : String) (st : LoopState) (td : Tweet) (tid : String)
    (h : td.tweet_id = some tid) (hm : tid ∈ st.seen) :
    processItem s env handle st td = { st with skipped := st.skipped + 1 } := by
  obtain ⟨tid?, tx, rt, pin⟩ := td
  cases tid? with
  | none => simp at h
  | some a =>
    injection h with h
    subst h
    simp only [processItem]
    rw [if_pos hm]

theorem processItems_all_seen (s : TwitterScraper) (env : String → AIOutcome)
    (handle : String) :
    ∀ (items : List Tweet) (st : LoopState),
      (∀ td ∈ items, ∀ tid, td.tweet_id = some tid → tid ∈ st.seen) →
      (∀ td ∈ items, (td.tweet_id).isSome = true) →
      processItems s env handle st items = { st with skipped := st.skipped + items.length } := by
  intro items
  induction items with
  | nil => intro st _ _; rfl
  | cons td rest ih =>
    intro st hseen hid
    obtain ⟨tid, htid⟩ : ∃ tid, td.tweet_id = some tid := by
      have h := hid td (List.mem_cons_self td rest)
      rcases htd : td.tweet_id with _ | a
      · rw [htd] at h; simp at h
      · exact ⟨a, rfl⟩
    have hskip := processItem_skip s env handle st td tid htid
      (hseen td (List.mem_cons_self td rest) tid htid)
    show processItems s env handle (processItem s env handle st td) rest = _
    rw [hskip, ih { st with skipped := st.skipped + 1 }
      (fun td' h' tid' ht' => hseen td' (List.mem_cons_of_mem td h') tid' ht')
      (fun td' h' => hid td' (List.mem_cons_of_mem td h'))]
    simp only [List.length_cons]
    congr 1
    omega

theorem extract_all_seen (s : TwitterScraper) (env : String → AIOutcome)
    (pages : String → Option (List Tweet)) (handle : String) (page : List Tweet)
    (hp : pages handle = some page)
    (hid : ∀ td ∈ page, (td.tweet_id).isSome = true)
    (hseen : ∀ td ∈ page, ∀ tid, td.tweet_id = some tid → tid ∈ s.seen_tweet_ids) :
    extract_tweets_from_handle s env pages handle
      = (some { handle := handle, tweets_count := 0, new_tweets_count := 0,
                skipped_tweets_count := page.length, tweets := [],
                filtered_out_count := 0,
                ai_classification_enabled := s.ai_classification,
                ai_provider := if s.ai_classification then s.ai_provider else "keyword" },
         s) := by
  have hall : processItems s env handle (initState s.seen_tweet_ids) page
      = { initState s.seen_tweet_ids with skipped := 0 + page.length } :=
    processItems_all_seen s env handle page _ hseen hid
  simp only [extract_tweets_from_handle, hp, hall]
  simp [initState, Prod.ext_iff]

/-- C2: on a fixed timeline snapshot in which every record has an
extractable id, a second run of the per-handle pipeline keeps zero new
tweets: every id was marked seen during the first run, so the second run
counts every record as skipped, classifies nothing, and leaves the seen
set unchanged. -/
theorem second_run_keeps_nothing (s : TwitterScraper) (env : String → AIOutcome)
    (pages : String → Option (List Tweet)) (handle : String) (page : List Tweet)
    (hp : pages handle = some page)
    (hid : ∀ td ∈ page, (td.tweet_id).isSome = true) :
    (extract_tweets_from_handle (extract_tweets_from_handle s env pages handle).2
        env pages handle).1
      = some { handle := handle, tweets_count := 0, new_tweets_count := 0,
               skipped_tweets_count := page.length, tweets := [],
               filtered_out_count := 0,
               ai_classification_enabled := s.ai_classification,
               ai_provider := if s.ai_classification then s.ai_provider else "keyword" } ∧
    (extract_tweets_from_handle (extract_tweets_from_handle s env pages handle).2
        env pages handle).2
      = (extract_tweets_from_handle s env pages handle).2 := by
  have e1 : (extract_tweets_from_handle s env pages handle).2
      = { s with seen_tweet_ids :=
            (processItems s env handle (initState s.seen_tweet_ids) page).seen } := by
    simp only [extract_tweets_from_handle, hp]
  rw [e1]
  have h2 := extract_all_seen
    { s with seen_tweet_ids :=
        (processItems s env handle (initState s.seen_tweet_ids) page).seen }
    env pages handle page hp hid
    (fun td hmem tid htid =>
      processItems_marks s env handle page (initState s.seen_tweet_ids) td tid hmem htid)
  rw [h2]
  exact ⟨rfl, rfl⟩

/-- C2 witness: a concrete two-item page (a pinned tweet and a tech
retweet, both with ids) run twice on the keyword-mode scraper. -/
theorem second_run_keeps_nothing_witness :
    (extract_tweets_from_handle
        (extract_tweets_from_handle scraperKW envNone pagesW2 "karpathy").2
        envNone pagesW2 "karpathy").1
      = some { handle := "karpathy", tweets_count := 0, new_tweets_count := 0,
               skipped_tweets_count := 2, tweets := [], filtered_out_count := 0,
               ai_classification_enabled := false, ai_provider := "keyword" } ∧
    (extract_tweets_from_handle
        (extract_tweets_from_handle scraperKW envNone pagesW2 "karpathy").2
        envNone pagesW2 "karpathy").2
      = (extract_tweets_from_handle scraperKW envNone pagesW2 "karpathy").2 :=
  second_run_keeps_nothing scraperKW envNone pagesW2 "karpathy"
    [pinnedTweet, techRetweet] (by decide) (by decide)

theorem extract_isSome (s : TwitterScraper) (env : String → AIOutcome)
    (pages : String → Option (List Tweet)) (handle : String) :
    ((extract_tweets_from_handle s env pages handle).1).isSome = (pages handle).isSome := by
  rcases hpg : pages handle with _ | items <;> simp [extract_tweets_from_handle, hpg]

theorem runHandles_inv (env : String → AIOutcome) (pages : String → Option (List Tweet)) :
    ∀ (handles : List String) (ms : MultiState),
      MsInv ms → MsInv (runHandles env pages ms handles) := by
  intro handles
  induction handles with
  | nil => exact fun ms h => h
  | cons h rest ih =>
    intro ms hm
    obtain ⟨h1, h2, h3, h4⟩ := hm
    rcases hE : extract_tweets_from_handle ms.scraper env pages h with ⟨o, s'⟩
    cases o with
    | some r =>
      simp only [runHandles, hE]
      apply ih
      refine ⟨?_, ?_, ?_, ?_⟩ <;> simp [h1, h2, h3, h4]
    | none =>
      simp only [runHandles, hE]
      apply ih
      exact ⟨h1, h2, h3, h4⟩

theorem runHandles_counts (env : String → AIOutcome) (pages : String → Option (List Tweet)) :
    ∀ (handles : List String) (ms : MultiState),
      (runHandles env pages ms handles).successful
        = ms.successful + (handles.filter (fun h => (pages h).isSome)).length ∧
      (runHandles env pages ms handles).all_results.length
        = ms.all_results.length + (handles.filter (fun h => (pages h).isSome)).length := by
  intro handles
  induction handles with
  | nil => intro ms; simp [runHandles]
  | cons h rest ih =>
    intro ms
    rcases hE : extract_tweets_from_handle ms.scraper env pages h with ⟨o, s'⟩
    have ho := extract_isSome ms.scraper env pages h
    rw [hE] at ho
    cases o with
    | some r =>
      have hpt : (pages h).isSome = true := by rw [← ho]; rfl
      simp only [runHandles, hE]
      obtain ⟨ih1, ih2⟩ := ih ⟨ms.all_results ++ [r], ms.combined ++ r.tweets,
        ms.successful + 1, ms.total_important + r.new_tweets_count,
        ms.total_filtered + r.filtered_out_count, s'⟩
      constructor
      · rw [ih1]
        simp [List.filter_cons, hpt]
        omega
      · rw [ih2]
        simp [List.filter_cons, hpt]
        omega
    | none =>
      have hpf : (pages h).isSome = false := by rw [← ho]; rfl
      simp only [runHandles, hE]
      obtain ⟨ih1, ih2⟩ := ih { ms with scraper := s' }
      constructor
      · rw [ih1]
        simp [List.filter_cons, hpf]
      · rw [ih2]
        simp [List.filter_cons, hpf]

theorem scoreDescLE_trans : ∀ a b c : ClassifiedTweet,
    scoreDescLE a b → scoreDescLE b c → scoreDescLE a c := by
  intro a b c hab hbc
  simp only [scoreDescLE, decide_eq_true_eq] at hab hbc ⊢
  omega

theorem scoreDescLE_total : ∀ a b : ClassifiedTweet,
    scoreDescLE a b || scoreDescLE b a := by
  intro a b
  simp only [scoreDescLE]
  rcases Int.le_total b.importance_score a.importance_score with h | h <;> simp [h]

theorem filter_mergeSort_score (l : List ClassifiedTweet) (sc : Int) :
    (l.mergeSort scoreDescLE).filter (fun t => t.importance_score == sc)
      = l.filter (fun t => t.importance_score == sc) := by
  have hA : (l.filter (fun t => t.importance_score == sc)).Pairwise
      (fun a b => scoreDescLE a b = true) := by
    apply List.pairwise_of_forall_mem_list
    intro a ha b hb
    have ha' := (List.mem_filter.mp ha).2
    have hb' := (List.mem_filter.mp hb).2
    simp only [beq_iff_eq] at ha' hb'
    simp [scoreDescLE, ha', hb']
  have hsub : List.Sublist (l.filter (fun t => t.importance_score == sc))
      (l.mergeSort scoreDescLE) :=
    List.sublist_mergeSort scoreDescLE_trans scoreDescLE_total hA (List.filter_sublist l)
  have hself : (l.filter (fun t => t.importance_score == sc)).filter
      (fun t => t.importance_score == sc) = l.filter (fun t => t.importance_score == sc) :=
    List.filter_eq_self.mpr (fun a ha => (List.mem_filter.mp ha).2)
  have hsub2 : List.Sublist (l.filter (fun t => t.importance_score == sc))
      ((l.mergeSort scoreDescLE).filter (fun t => t.importance_score == sc)) := by
    have hs := hsub.filter (fun t => t.importance_score == sc)
    rwa [hself] at hs
  have hperm : List.Perm
      ((l.mergeSort scoreDescLE).filter (fun t => t.importance_score == sc))
      (l.filter (fun t => t.importance_score == sc)) :=
    (List.mergeSort_perm l scoreDescLE).filter _
  exact (hsub2.eq_of_length hperm.length_eq.symm).symm

/-- C7: the aggregated combined-tweets sequence is the concatenation of
the per-handle kept lists (handle-list order, then page order)
stable-sorted by importance score descending: scores are pairwise
non-increasing, tweets of any fixed score keep exactly their
concatenation order (equal filters), and the sequence is a permutation of
the concatenation. -/
theorem combined_sorted_stable_desc (s : TwitterScraper) (env : String → AIOutcome)
    (pages : String → Option (List Tweet)) (handles : List String) :
    ((extract_tweets_from_multiple_handles s env pages handles).1.combined_tweets).Pairwise
      (fun a b => b.importance_score ≤ a.importance_score) ∧
    (∀ sc : Int,
      ((extract_tweets_from_multiple_handles s env pages handles).1.combined_tweets).filter
          (fun t => t.importance_score == sc)
        = ((((extract_tweets_from_multiple_handles s env pages handles).1.individual_results).map
              (fun r => r.tweets)).flatten).filter (fun t => t.importance_score == sc)) ∧
    List.Perm ((extract_tweets_from_multiple_handles s env pages handles).1.combined_tweets)
      ((((extract_tweets_from_multiple_handles s env pages handles).1.individual_results).map
          (fun r => r.tweets)).flatten) := by
  obtain ⟨hc, -, -, -⟩ :=
    runHandles_inv env pages handles ⟨[], [], 0, 0, 0, s⟩ ⟨rfl, rfl, rfl, rfl⟩
  simp only [extract_tweets_from_multiple_handles]
  refine ⟨?_, ?_, ?_⟩
  · exact (List.sorted_mergeSort scoreDescLE_trans scoreDescLE_total _).imp
      (fun h => of_decide_eq_true h)
  · intro sc
    rw [filter_mergeSort_score, hc]
  · rw [← hc]
    exact List.mergeSort_perm _ _

/-- C8: a failed fetch does not abort the multi-handle run: the aggregate
successful-handle count equals the number of handles whose fetch (and
hence pipeline) returned a result, one result record is collected per
such handle, the aggregate totals are sums over the collected results
only, and every collected result's kept tweets appear in the combined
output. -/
theorem partial_failure_isolation (s : TwitterScraper) (env : String → AIOutcome)
    (pages : String → Option (List Tweet)) (handles : List String) :
    ((extract_tweets_from_multiple_handles s env pages handles).1.stats.successful_handles
        = (handles.filter (fun h => (pages h).isSome)).length) ∧
    ((extract_tweets_from_multiple_handles s env pages handles).1.individual_results.length
        = (extract_tweets_from_multiple_handles s env pages handles).1.stats.successful_handles) ∧
    ((extract_tweets_from_multiple_handles s env pages handles).1.stats.total_important_tweets
        = (((extract_tweets_from_multiple_handles s env pages handles).1.individual_results).map
            (fun r => r.new_tweets_count)).sum) ∧
    ((extract_tweets_from_multiple_handles s env pages handles).1.stats.total_filtered_tweets
        = (((extract_tweets_from_multiple_handles s env pages handles).1.individual_results).map
            (fun r => r.filtered_out_count)).sum) ∧
    (∀ r ∈ (extract_tweets_from_multiple_handles s env pages handles).1.individual_results,
      ∀ t ∈ r.tweets,
        t ∈ (extract_tweets_from_multiple_handles s env pages handles).1.combined_tweets) := by
  obtain ⟨hc, hsu, hti, htf⟩ :=
    runHandles_inv env pages handles ⟨[], [], 0, 0, 0, s⟩ ⟨rfl, rfl, rfl, rfl⟩
  obtain ⟨hc1, hc2⟩ := runHandles_counts env pages handles ⟨[], [], 0, 0, 0, s⟩
  simp only [extract_tweets_from_multiple_handles]
  refine ⟨?_, ?_, ?_, ?_, ?_⟩
  · rw [hc1]
    simp
  · exact hsu.symm
  · exact hti
  · exact htf
  · intro r hr t ht
    rw [List.mem_mergeSort, hc]
    exact List.mem_flatten.mpr ⟨r.tweets, List.mem_map_of_mem _ hr, ht⟩
